import Mathlib

/-!
# Verification of the whatsapp-ai-bot connection supervisor and context manager

This file gives a shallow embedding of the connection-resilience core of the
repository (`src/baileys/index.ts`) and of the conversation-context manager
described by the repository's design documents, and proves (or refutes)
the specification's claims about them.

The `connection.update` handler of `connectToWhatsApp` is modelled as a pure
function from the update payload to the list of side-effecting actions it
performs, in order.  `connectToDatabase` is modelled as a pure function of
the `MONGO_ENABLED` flag and the current filesystem state.
-/

namespace WhatsAppBot

/-! Reason codes from the baileys `DisconnectReason` enum used by the code. -/

namespace DisconnectReason

/-- `DisconnectReason.loggedOut` — explicit logout / session revoked. -/
def loggedOut : Nat := 401

/-- `DisconnectReason.connectionLost` — a recoverable network failure. -/
def connectionLost : Nat := 408

/-- `DisconnectReason.restartRequired` — a recoverable server restart. -/
def restartRequired : Nat := 515

end DisconnectReason

/-- The `output` field of a `Boom` error: `output.statusCode` may be absent. -/
structure BoomOutput where
  statusCode : Option Nat
deriving Repr, DecidableEq

/-- A `Boom` error object as read by the handler; `output` may be absent
(the code accesses it with optional chaining). -/
structure BoomError where
  output : Option BoomOutput
deriving Repr, DecidableEq

/-- The `lastDisconnect` payload of a connection update; its `error` field
may be absent. -/
structure LastDisconnect where
  error : Option BoomError
deriving Repr, DecidableEq

/-- The `connection` field of a connection update. -/
inductive ConnStatus
  | close
  | opened
  | connecting
deriving Repr, DecidableEq

/-- A `connection.update` event: every field the handler destructures
(`connection`, `lastDisconnect`, `qr`) may be absent. -/
structure ConnectionUpdate where
  connection : Option ConnStatus
  lastDisconnect : Option LastDisconnect
  qr : Option String
deriving Repr, DecidableEq

/-- The side-effecting actions the `connection.update` handler can perform,
in the order it performs them:
`renderQR` is `qrcode.generate(qr, \x7b small: true \x7d)`,
`purgeSessionDir` is `fs.rmSync(wwjsPath, \x7b force: true, recursive: true \x7d)`,
`reconnect` is the recursive call `connectToWhatsApp()`. -/
inductive Action
  | renderQR (payload : String)
  | purgeSessionDir
  | reconnect
deriving Repr, DecidableEq

/-- `(lastDisconnect.error as Boom)?.output?.statusCode`: each step of the
optional chain yields `none` when the field is absent. -/
def statusCode (ld : LastDisconnect) : Option Nat :=
  ld.error.bind fun e => e.output.bind fun o => o.statusCode

/-- `const shouldReconnect = (lastDisconnect.error as Boom)?.output?.statusCode
!== DisconnectReason.loggedOut;` -/
def shouldReconnect (ld : LastDisconnect) : Bool :=
  statusCode ld != some DisconnectReason.loggedOut

/-- The body of `if (connection === 'close' && lastDisconnect) { ... }`:
when `shouldReconnect`, call `connectToWhatsApp()`; otherwise, only when
`lastDisconnect.error` is present, remove the file session directory and
call `connectToWhatsApp()`. -/
def handleClose (ld : LastDisconnect) : List Action :=
  if shouldReconnect ld then
    [Action.reconnect]
  else
    match ld.error with
    | some _ => [Action.purgeSessionDir, Action.reconnect]
    | none => []

/-- The guarded part of the handler (the `try` block): the close branch runs
only when `connection === 'close'` and `lastDisconnect` is truthy; the
`'open'` branch and all other updates perform no action. -/
def coreActions (u : ConnectionUpdate) : List Action :=
  match u.connection, u.lastDisconnect with
  | some ConnStatus.close, some ld => handleClose ld
  | _, _ => []

/-- The whole `connection.update` handler.  `qrcode.generate` runs first,
before and outside the `try`/`catch`; `qrThrows` says whether the QR
presentation collaborator throws.  When it does, the exception propagates
out of the handler and the rest of the body never runs. -/
def handleConnectionUpdate (qrThrows : Bool) (u : ConnectionUpdate) : List Action :=
  match u.qr with
  | some s =>
    if qrThrows then [Action.renderQR s]
    else Action.renderQR s :: coreActions u
  | none => coreActions u

/-- The local credential material the handler's actions can affect:
the durable MongoDB credential record and the file-based session directory.
`Action.purgeSessionDir` removes only the directory; no action touches the
MongoDB record. -/
structure Stores where
  mongoRecord : Option Nat
  sessionDirExists : Bool
deriving Repr, DecidableEq

/-- Effect of one handler action on the stored credential material. -/
def applyAction (s : Stores) : Action → Stores
  | Action.purgeSessionDir => { s with sessionDirExists := false }
  | _ => s

/-- Effect of a sequence of handler actions, applied in order. -/
def applyActions (s : Stores) (acts : List Action) : Stores :=
  acts.foldl applyAction s

/-- Total reconnect calls spawned by delivering a list of
`connection.update` events to the handler (QR rendering not throwing).
The handler keeps no in-flight state between events. -/
def reconnectCount (events : List ConnectionUpdate) : Nat :=
  (events.map fun u => (handleConnectionUpdate false u).count Action.reconnect).sum

/-- Which auth backend `connectToDatabase` returns. -/
inductive AuthBackend
  | mongoDB
  | multiFile
deriving Repr, DecidableEq

/-- Result of `connectToDatabase`: the backend selected, whether the file
session directory exists afterwards, and whether `fs.mkdirSync` was called. -/
structure ConnectDBResult where
  backend : AuthBackend
  dirExistsAfter : Bool
  mkdirCalled : Bool
deriving Repr, DecidableEq

/-- `connectToDatabase`: when `ENV.MONGO_ENABLED`, use the MongoDB auth
state and never touch the filesystem; otherwise create the session
directory recursively when it does not exist, then load the multi-file
auth state from it. -/
def connectToDatabase (mongoEnabled : Bool) (dirExists : Bool) : ConnectDBResult :=
  if mongoEnabled then
    { backend := AuthBackend.mongoDB, dirExistsAfter := dirExists, mkdirCalled := false }
  else if dirExists then
    { backend := AuthBackend.multiFile, dirExistsAfter := true, mkdirCalled := false }
  else
    { backend := AuthBackend.multiFile, dirExistsAfter := true, mkdirCalled := true }

/-- State of credential persistence: which credential versions are persisted
to the session store and which have been acknowledged back to the transport
(the handler returning). -/
structure CredState where
  persisted : List Nat
  acked : List Nat
deriving Repr, DecidableEq

/-- `saveCreds` persists one credential version to the session store. -/
def saveCreds (s : CredState) (c : Nat) : CredState :=
  { s with persisted := s.persisted ++ [c] }

/-- Delivering one `creds.update` event: the registered handler is
`saveCreds` itself (`sock.ev.on` at the end of `connectToWhatsApp`), so
the event is persisted first, and only then does the handler complete,
acknowledging the event to the transport. -/
def processCredEvent (s : CredState) (c : Nat) : CredState :=
  let s1 := saveCreds s c
  { s1 with acked := s1.acked ++ [c] }

/-- Delivering a stream of `creds.update` events in the order received. -/
def processCredEvents (s : CredState) (cs : List Nat) : CredState :=
  cs.foldl processCredEvent s

/-! ## Context Manager

Modelled from the spec: the repository's plan document
(`docs/conversation-history-persistence-plan.md`) describes
`src/services/ConversationHistoryManager.ts`, which is not present in the
repository sources, so the Context Manager operations below follow the
spec's words (§4.4 and the data-model invariants). -/

/-- Role of a conversation turn. -/
inductive Role
  | user
  | assistant
  | system
deriving Repr, DecidableEq

/-- One message unit in a conversation. -/
structure Turn where
  role : Role
  content : String
  timestamp : Nat
deriving Repr, DecidableEq

/-- A conversation record: its ordered turn sequence and the last-updated
timestamp (measured in days here). -/
structure ConversationRecord where
  messages : List Turn
  lastUpdated : Nat
deriving Repr, DecidableEq

/-- Composite conversation key `(userId, modelName)`. -/
abbrev ConvKey := String × String

/-- Look a conversation record up by its composite key in an association
list (the first binding wins). -/
def lookupRec (l : List (ConvKey × ConversationRecord)) (k : ConvKey) :
    Option ConversationRecord :=
  (l.find? fun kr => kr.1 == k).map Prod.snd

/-- Cache and durable store of the Context Manager, each an index from
composite key to conversation record. -/
structure CtxState where
  cache : List (ConvKey × ConversationRecord)
  store : List (ConvKey × ConversationRecord)
deriving Repr, DecidableEq

/-- Modelled from the spec: `appendTurn` appends the turn to the record,
applies the FIFO trim (drop oldest turns first once the sequence exceeds
`maxMessages`) and refreshes `lastUpdated`.
(`src/services/ConversationHistoryManager.ts` is absent from the sources.) -/
def appendTurn (maxMessages : Nat) (r : ConversationRecord) (t : Turn) (now : Nat) :
    ConversationRecord :=
  let msgs := r.messages ++ [t]
  { messages := msgs.drop (msgs.length - maxMessages), lastUpdated := now }

/-- Modelled from the spec: `getHistory` does a cache lookup; on miss it
loads from the durable store and populates the cache; when no record exists
it creates an empty record, stores it and returns the empty sequence.
(`src/services/ConversationHistoryManager.ts` is absent from the sources.) -/
def getHistory (s : CtxState) (userId modelName : String) :
    List Turn × CtxState :=
  let k : ConvKey := (userId, modelName)
  match lookupRec s.cache k with
  | some r => (r.messages, s)
  | none =>
    match lookupRec s.store k with
    | some r => (r.messages, { s with cache := (k, r) :: s.cache })
    | none =>
      let r : ConversationRecord := { messages := [], lastUpdated := 0 }
      (r.messages, { cache := (k, r) :: s.cache, store := (k, r) :: s.store })

/-- A record is eligible for cleanup exactly when its `lastUpdated` is older
than `cleanupDays` before `now` (timestamps in days). -/
def isExpired (cleanupDays now lastUpdated : Nat) : Bool :=
  lastUpdated + cleanupDays < now

/-- Modelled from the spec: `runCleanup now` removes from the durable store
every record whose `lastUpdated` is older than `cleanupDays` before `now`,
together with its cache entry, and returns the count of records removed.
(`src/services/ConversationHistoryManager.ts` is absent from the sources.) -/
def runCleanup (cleanupDays now : Nat) (s : CtxState) : CtxState × Nat :=
  let kept := s.store.filter fun kr => ! isExpired cleanupDays now kr.2.lastUpdated
  let keptCache := s.cache.filter fun kr => ! isExpired cleanupDays now kr.2.lastUpdated
  ({ cache := keptCache, store := kept }, s.store.length - kept.length)

/-! ## Concrete payloads used by witnesses and counterexamples -/

/-- A `lastDisconnect` carrying the explicit-logout status code. -/
def ldLoggedOut : LastDisconnect :=
  { error := some { output := some { statusCode := some DisconnectReason.loggedOut } } }

/-- A `lastDisconnect` carrying a recoverable status code (connection lost). -/
def ldLost : LastDisconnect :=
  { error := some { output := some { statusCode := some DisconnectReason.connectionLost } } }

/-- A close update with a recoverable disconnect reason and no QR payload. -/
def closeLostUpdate : ConnectionUpdate :=
  { connection := some ConnStatus.close, lastDisconnect := some ldLost, qr := none }

/-- A close update with a recoverable disconnect reason that also carries a
QR payload. -/
def closeLostQRUpdate : ConnectionUpdate :=
  { connection := some ConnStatus.close, lastDisconnect := some ldLost, qr := some "pair" }

/-- A conversation record last updated 31 days before the cleanup instant. -/
def recStale : ConversationRecord := { messages := [], lastUpdated := 69 }

/-- A conversation record last updated 1 day before the cleanup instant. -/
def recFresh : ConversationRecord := { messages := [], lastUpdated := 99 }

/-- A durable store holding one stale and one fresh conversation record. -/
def cleanupStore : CtxState :=
  { cache := [], store := [(("u", "m"), recStale), (("u", "n"), recFresh)] }

/-! ## Helper lemmas -/

lemma shouldReconnect_eq_true_iff (ld : LastDisconnect) :
    shouldReconnect ld = true ↔ statusCode ld ≠ some DisconnectReason.loggedOut := by
  simp [shouldReconnect]

lemma shouldReconnect_eq_false_iff (ld : LastDisconnect) :
    shouldReconnect ld = false ↔ statusCode ld = some DisconnectReason.loggedOut := by
  simp [shouldReconnect]

lemma error_isSome_of_statusCode (ld : LastDisconnect) (v : Nat)
    (h : statusCode ld = some v) : ∃ e, ld.error = some e := by
  cases he : ld.error with
  | none => simp [statusCode, he] at h
  | some e => exact ⟨e, rfl⟩

lemma handleClose_of_recoverable (ld : LastDisconnect)
    (h : statusCode ld ≠ some DisconnectReason.loggedOut) :
    handleClose ld = [Action.reconnect] := by
  have hb : shouldReconnect ld = true := (shouldReconnect_eq_true_iff ld).mpr h
  simp [handleClose, hb]

lemma handleClose_of_loggedOut (ld : LastDisconnect)
    (h : statusCode ld = some DisconnectReason.loggedOut) :
    handleClose ld = [Action.purgeSessionDir, Action.reconnect] := by
  have hb : shouldReconnect ld = false := (shouldReconnect_eq_false_iff ld).mpr h
  obtain ⟨e, he⟩ := error_isSome_of_statusCode ld _ h
  simp [handleClose, hb, he]

lemma reconnect_mem_handleClose (ld : LastDisconnect) :
    Action.reconnect ∈ handleClose ld := by
  by_cases h : statusCode ld = some DisconnectReason.loggedOut
  · rw [handleClose_of_loggedOut ld h]; simp
  · rw [handleClose_of_recoverable ld h]; simp

lemma count_reconnect_handleClose (ld : LastDisconnect) :
    (handleClose ld).count Action.reconnect = 1 := by
  by_cases h : statusCode ld = some DisconnectReason.loggedOut
  · rw [handleClose_of_loggedOut ld h]; rfl
  · rw [handleClose_of_recoverable ld h]; rfl

lemma processCredEvents_eq (l a cs : List Nat) :
    processCredEvents { persisted := l, acked := a } cs =
      { persisted := l ++ cs, acked := a ++ cs } := by
  induction cs generalizing l a with
  | nil => simp [processCredEvents]
  | cons c cs ih =>
    calc processCredEvents { persisted := l, acked := a } (c :: cs)
        = processCredEvents { persisted := l ++ [c], acked := a ++ [c] } cs := rfl
      _ = { persisted := l ++ [c] ++ cs, acked := a ++ [c] ++ cs } := ih _ _
      _ = { persisted := l ++ (c :: cs), acked := a ++ (c :: cs) } := by simp

/-! ## Claim theorems -/

/-- C1: for every close update carrying a disconnect reason, the handler
classifies the reason as recoverable exactly when it is not the
explicit-logout status code, and on a recoverable reason its only action is
an immediate reconnect, which leaves every piece of stored credential
material (MongoDB record and file session directory) untouched. -/
theorem recoverable_close_reconnects_preserving_credentials
    (ld : LastDisconnect) (h : statusCode ld ≠ some DisconnectReason.loggedOut) :
    (shouldReconnect ld = true ↔ statusCode ld ≠ some DisconnectReason.loggedOut) ∧
    handleClose ld = [Action.reconnect] ∧
    ∀ s : Stores, applyActions s (handleClose ld) = s := by
  refine ⟨shouldReconnect_eq_true_iff ld, handleClose_of_recoverable ld h, ?_⟩
  intro s
  rw [handleClose_of_recoverable ld h]
  rfl

/-- Witness for C1 at a concrete recoverable reason (connection lost, 408). -/
theorem recoverable_close_reconnects_preserving_credentials_witness :
    handleClose ldLost = [Action.reconnect] ∧
    applyActions { mongoRecord := some 7, sessionDirExists := true } (handleClose ldLost) =
      { mongoRecord := some 7, sessionDirExists := true } := by
  have h := recoverable_close_reconnects_preserving_credentials ldLost (by decide)
  exact ⟨h.2.1, h.2.2 _⟩

/-- C2 counterexample: on an explicit-logout close the handler only removes
the file session directory; the durable MongoDB credential record survives,
so the claim that all local credential material is destroyed for whichever
session store is configured is false when the MongoDB store is configured. -/
theorem loggedOut_close_leaves_mongo_record :
    (applyActions { mongoRecord := some 7, sessionDirExists := true }
      (handleClose ldLoggedOut)).mongoRecord ≠ none := by decide

/-- C2 amended: on an explicit-logout close the handler removes the
file-based session directory and reconnects; the MongoDB durable credential
record is never purged, whatever store is configured. -/
theorem loggedOut_close_purges_only_file_dir
    (ld : LastDisconnect) (h : statusCode ld = some DisconnectReason.loggedOut) :
    handleClose ld = [Action.purgeSessionDir, Action.reconnect] ∧
    ∀ s : Stores,
      (applyActions s (handleClose ld)).sessionDirExists = false ∧
      (applyActions s (handleClose ld)).mongoRecord = s.mongoRecord := by
  refine ⟨handleClose_of_loggedOut ld h, ?_⟩
  intro s
  rw [handleClose_of_loggedOut ld h]
  exact ⟨rfl, rfl⟩

/-- Witness for the amended C2 at the concrete logout payload. -/
theorem loggedOut_close_purges_only_file_dir_witness :
    handleClose ldLoggedOut = [Action.purgeSessionDir, Action.reconnect] ∧
    (applyActions { mongoRecord := some 7, sessionDirExists := true }
      (handleClose ldLoggedOut)).sessionDirExists = false := by
  have h := loggedOut_close_purges_only_file_dir ldLoggedOut (by decide)
  exact ⟨h.1, (h.2 _).1⟩

/-- C3 counterexample: two close notifications for the same logical
connection each spawn their own reconnect — the handler has no single-flight
guard, so the claimed at-most-one `Connecting` transition is false. -/
theorem two_close_events_spawn_two_reconnects :
    ¬ (reconnectCount [closeLostUpdate, closeLostUpdate] ≤ 1) := by decide

/-- C3 amended: the handler keeps no in-flight state: every delivered close
update that carries a `lastDisconnect` payload spawns exactly one new
connection attempt, so n disconnect notifications spawn n attempts. -/
theorem each_close_event_spawns_one_reconnect
    (events : List ConnectionUpdate)
    (h : ∀ e ∈ events, e.connection = some ConnStatus.close ∧ e.lastDisconnect.isSome) :
    reconnectCount events = events.length := by
  induction events with
  | nil => rfl
  | cons e es ih =>
    have he := h e (by simp)
    have hes : ∀ x ∈ es, x.connection = some ConnStatus.close ∧ x.lastDisconnect.isSome :=
      fun x hx => h x (by simp [hx])
    obtain ⟨hc, hld⟩ := he
    obtain ⟨ld, hld2⟩ := Option.isSome_iff_exists.mp hld
    have hone : (handleConnectionUpdate false e).count Action.reconnect = 1 := by
      obtain ⟨c, lds, q⟩ := e
      simp only at hc hld2
      subst hc hld2
      cases q with
      | none =>
        show (handleClose ld).count Action.reconnect = 1
        exact count_reconnect_handleClose ld
      | some s =>
        show (Action.renderQR s :: handleClose ld).count Action.reconnect = 1
        rw [List.count_cons]
        rw [count_reconnect_handleClose ld]
        rfl
    simp only [reconnectCount, List.map_cons, List.sum_cons] at *
    rw [hone, ih hes, List.length_cons]
    omega

/-- Witness for the amended C3: two concrete close notifications spawn two
connection attempts. -/
theorem each_close_event_spawns_one_reconnect_witness :
    reconnectCount [closeLostUpdate, closeLostUpdate] =
      [closeLostUpdate, closeLostUpdate].length := by
  exact each_close_event_spawns_one_reconnect [closeLostUpdate, closeLostUpdate] (by decide)

/-- C4: after any `appendTurn` the stored turn count is at most
`maxMessages`, the retained turns form a suffix of the appended sequence
(so the oldest turns are the ones dropped, in insertion order), and the
count retained is exactly the lesser of the cap and the appended length. -/
theorem appendTurn_trim_invariant
    (maxMessages : Nat) (r : ConversationRecord) (t : Turn) (now : Nat) :
    (appendTurn maxMessages r t now).messages.length ≤ maxMessages ∧
    (appendTurn maxMessages r t now).messages <:+ (r.messages ++ [t]) ∧
    (appendTurn maxMessages r t now).messages.length =
      min maxMessages (r.messages.length + 1) := by
  refine ⟨?_, ?_, ?_⟩
  · simp [appendTurn]
    omega
  · simpa [appendTurn] using List.drop_suffix _ (r.messages ++ [t])
  · simp [appendTurn]
    omega

/-- C5: for a (userId, modelName) pair with no record in the cache nor the
durable store, `getHistory` returns the empty sequence and populates both
the cache and the store with an empty record — absence is never a failure. -/
theorem getHistory_absent_returns_empty
    (s : CtxState) (userId modelName : String)
    (h1 : lookupRec s.cache (userId, modelName) = none)
    (h2 : lookupRec s.store (userId, modelName) = none) :
    (getHistory s userId modelName).1 = [] ∧
    lookupRec (getHistory s userId modelName).2.cache (userId, modelName) =
      some { messages := [], lastUpdated := 0 } ∧
    lookupRec (getHistory s userId modelName).2.store (userId, modelName) =
      some { messages := [], lastUpdated := 0 } := by
  have e1 : getHistory s userId modelName =
      (([] : List Turn),
        { cache := ((userId, modelName), { messages := [], lastUpdated := 0 }) :: s.cache,
          store := ((userId, modelName), { messages := [], lastUpdated := 0 }) :: s.store }) := by
    simp only [getHistory, h1, h2]
  rw [e1]
  refine ⟨rfl, ?_, ?_⟩ <;> simp [lookupRec]

/-- Witness for C5 on the empty cache and store. -/
theorem getHistory_absent_returns_empty_witness :
    (getHistory { cache := [], store := [] } "alice" "gpt").1 = [] ∧
    lookupRec (getHistory { cache := [], store := [] } "alice" "gpt").2.cache
      ("alice", "gpt") = some { messages := [], lastUpdated := 0 } ∧
    lookupRec (getHistory { cache := [], store := [] } "alice" "gpt").2.store
      ("alice", "gpt") = some { messages := [], lastUpdated := 0 } :=
  getHistory_absent_returns_empty { cache := [], store := [] } "alice" "gpt" rfl rfl

/-- C6: a record survives `runCleanup` exactly when its `lastUpdated` is not
older than `cleanupDays` before `now` — eligibility for removal is a pure
function of `lastUpdated`. -/
theorem runCleanup_removes_exactly_expired
    (cleanupDays now : Nat) (s : CtxState) (k : ConvKey) (r : ConversationRecord)
    (h : (k, r) ∈ s.store) :
    ((k, r) ∈ (runCleanup cleanupDays now s).1.store ↔
      ¬ (r.lastUpdated + cleanupDays < now)) := by
  simp [runCleanup, List.mem_filter, isExpired, h]

/-- Witness for C6: with `cleanupDays = 30` evaluated at day 100, the record
last updated on day 69 (31 days old) is removed and the record last updated
on day 99 (1 day old) is retained. -/
theorem runCleanup_removes_exactly_expired_witness :
    (¬ ((("u", "m"), recStale) ∈ (runCleanup 30 100 cleanupStore).1.store)) ∧
    ((("u", "n"), recFresh) ∈ (runCleanup 30 100 cleanupStore).1.store) := by
  constructor
  · intro hmem
    exact (runCleanup_removes_exactly_expired 30 100 cleanupStore ("u", "m") recStale
      (by decide)).mp hmem (by decide)
  · exact (runCleanup_removes_exactly_expired 30 100 cleanupStore ("u", "n") recFresh
      (by decide)).mpr (by decide)

/-- C7: delivering a stream of credential-update events leaves the session
store holding exactly that stream in the order received, and at every point
of the stream each acknowledged event is already persisted (acknowledgements
are a prefix of what is persisted). -/
theorem creds_persisted_in_order_before_ack
    (cs p : List Nat) (h : p <+: cs) :
    (processCredEvents { persisted := [], acked := [] } cs).persisted = cs ∧
    (processCredEvents { persisted := [], acked := [] } p).acked <+:
      (processCredEvents { persisted := [], acked := [] } p).persisted := by
  constructor
  · rw [processCredEvents_eq]
    simp
  · rw [processCredEvents_eq]

/-- Witness for C7 on a concrete three-event stream and its two-event
intermediate point. -/
theorem creds_persisted_in_order_before_ack_witness :
    (processCredEvents { persisted := [], acked := [] } [5, 6, 7]).persisted = [5, 6, 7] ∧
    (processCredEvents { persisted := [], acked := [] } [5, 6]).acked <+:
      (processCredEvents { persisted := [], acked := [] } [5, 6]).persisted :=
  creds_persisted_in_order_before_ack [5, 6, 7] [5, 6] ⟨[7], rfl⟩

/-- C8 counterexample: QR rendering runs before and outside the handler's
`try`/`catch`, so on an update that carries both a QR payload and a close
event, a throwing QR render aborts the handler and the disconnect
classification never runs — no reconnect is spawned. -/
theorem qr_failure_skips_close_handling :
    Action.reconnect ∉ handleConnectionUpdate true closeLostQRUpdate := by decide

/-- C8 amended: whenever QR rendering does not throw — in particular on any
update without a QR payload — the disconnect classification and reconnect
actions of that event still execute, after the optional QR render; only a
throwing QR render on an update that also carries a QR payload can abort
them. -/
theorem close_handling_runs_unless_qr_throws
    (qrThrows : Bool) (u : ConnectionUpdate)
    (h : qrThrows = false ∨ u.qr = none) :
    coreActions u <:+ handleConnectionUpdate qrThrows u := by
  obtain ⟨c, lds, q⟩ := u
  cases q with
  | none => exact List.suffix_rfl
  | some s =>
    rcases h with h | h
    · subst h
      exact List.suffix_cons _ _
    · simp at h

/-- Witness for the amended C8: with a non-throwing QR render, the close
handling of a concrete update carrying both a QR payload and a recoverable
close still executes. -/
theorem close_handling_runs_unless_qr_throws_witness :
    coreActions closeLostQRUpdate <:+ handleConnectionUpdate false closeLostQRUpdate :=
  close_handling_runs_unless_qr_throws false closeLostQRUpdate (Or.inl rfl)

/-- C9: a close update with a `lastDisconnect` payload always spawns a
reconnect — there is no reachable give-up branch, because the logout path
implies the error payload is present, making the inner error guard true —
while a close update without a `lastDisconnect` payload performs no action. -/
theorem close_with_lastDisconnect_always_reconnects
    (u : ConnectionUpdate) (hc : u.connection = some ConnStatus.close) :
    (u.lastDisconnect = none → coreActions u = []) ∧
    (∀ ld, u.lastDisconnect = some ld →
      Action.reconnect ∈ coreActions u ∧
      (statusCode ld = some DisconnectReason.loggedOut →
        ld.error ≠ none ∧
        handleClose ld = [Action.purgeSessionDir, Action.reconnect])) := by
  obtain ⟨c, lds, q⟩ := u
  simp only at hc
  subst hc
  constructor
  · intro hnone
    simp only at hnone
    subst hnone
    rfl
  · intro ld hsome
    simp only at hsome
    subst hsome
    refine ⟨reconnect_mem_handleClose ld, ?_⟩
    intro hout
    obtain ⟨e, he⟩ := error_isSome_of_statusCode ld _ hout
    exact ⟨by simp [he], handleClose_of_loggedOut ld hout⟩

/-- Witness for C9 at a concrete close update carrying a recoverable
disconnect payload. -/
theorem close_with_lastDisconnect_always_reconnects_witness :
    Action.reconnect ∈ coreActions closeLostUpdate := by
  have h := close_with_lastDisconnect_always_reconnects closeLostUpdate rfl
  exact (h.2 ldLost rfl).1

/-- C10: the session backend is selected solely by `MONGO_ENABLED`: when
set, the MongoDB auth state is used and the filesystem is untouched; when
unset, the multi-file auth state is used, the session directory exists by
the time the auth state is loaded, and `mkdirSync` is called exactly when
the directory was absent. -/
theorem connectToDatabase_backend_selection (mongoEnabled dirExists : Bool) :
    (mongoEnabled = true →
      connectToDatabase mongoEnabled dirExists =
        { backend := AuthBackend.mongoDB, dirExistsAfter := dirExists,
          mkdirCalled := false }) ∧
    (mongoEnabled = false →
      (connectToDatabase mongoEnabled dirExists).backend = AuthBackend.multiFile ∧
      (connectToDatabase mongoEnabled dirExists).dirExistsAfter = true ∧
      ((connectToDatabase mongoEnabled dirExists).mkdirCalled = true ↔
        dirExists = false)) := by
  cases mongoEnabled <;> cases dirExists <;> simp [connectToDatabase]

/-- Witness for C10: MongoDB enabled leaves the filesystem untouched; with
MongoDB disabled and the directory absent, the directory exists after. -/
theorem connectToDatabase_backend_selection_witness :
    connectToDatabase true true =
      { backend := AuthBackend.mongoDB, dirExistsAfter := true, mkdirCalled := false } ∧
    (connectToDatabase false false).dirExistsAfter = true :=
  ⟨(connectToDatabase_backend_selection true true).1 rfl,
    ((connectToDatabase_backend_selection false false).2 rfl).2.1⟩

end WhatsAppBot
